import Mathlib

/-!
Verification development for the recommendation decoder and state-to-text
composer of `src/llm/reasoning.py` (repository MajSoulTeacher).

Python values are shallowly embedded as the inductive type `PyVal`;
Python floats are modelled as exact rationals (constructed with `mkRat`,
compared through cross multiplication of numerator and denominator, which
agrees with the rational order because denominators are positive).
Functions that can raise in Python return `Except String`; a `try/except`
in the source becomes a `match` on that result.  Functions from
`common/mj_helper.py` (imported as `mjh` in the source) are not part of
the provided sources; they are modelled from the specification and kept
parametric where the specification underdetermines them (see `MjHelper`).
-/

/-- Shallow embedding of the Python values handled by `reasoning.py`. -/
inductive PyVal where
  | none
  | bool (b : Bool)
  | int (n : Int)
  | float (q : ℚ)
  | str (s : String)
  | list (xs : List PyVal)
  | tuple (xs : List PyVal)
  | dict (kvs : List (String × PyVal))

/-- Python truthiness (`bool(v)`). -/
def pyBool : PyVal → Bool
  | .none => false
  | .bool b => b
  | .int n => n != 0
  | .float q => q.num != 0
  | .str s => s != ""
  | .list xs => !xs.isEmpty
  | .tuple xs => !xs.isEmpty
  | .dict kvs => !kvs.isEmpty

/-- Numeric view of a Python value (`int`, `bool` and `float` are mutually
comparable numbers in Python). -/
def pyNum : PyVal → Option ℚ
  | .int n => some (mkRat n 1)
  | .bool b => some (mkRat (if b then 1 else 0) 1)
  | .float q => some q
  | _ => Option.none

/-- Boolean rational comparison by cross multiplication (denominators of
reduced rationals are positive, so this is the rational order). -/
def qLeB (x y : ℚ) : Bool := x.num * (y.den : Int) ≤ y.num * (x.den : Int)

/-- Boolean strict rational comparison by cross multiplication. -/
def qLtB (x y : ℚ) : Bool := x.num * (y.den : Int) < y.num * (x.den : Int)

theorem qLeB_iff (x y : ℚ) : qLeB x y = true ↔ x ≤ y := by
  simp [qLeB, Rat.le_def]

theorem qLtB_iff (x y : ℚ) : qLtB x y = true ↔ x < y := by
  simp [qLtB, Rat.lt_def]

/-- Rational multiplication through `mkRat` (kept reducible; equal to the
field multiplication of `ℚ`). -/
def qMul (x y : ℚ) : ℚ := mkRat (x.num * y.num) (x.den * y.den)

/-- Rational addition through `mkRat`. -/
def qAdd (x y : ℚ) : ℚ := mkRat (x.num * y.den + y.num * x.den) (x.den * y.den)

/-- Python equality (`==`) as used by the source: the source only compares
scalars (a loop index against `self_seat`, an action tag against a string
literal), so container equality is never exercised and compares
structurally false here. -/
def pyEq (a b : PyVal) : Bool :=
  match pyNum a, pyNum b with
  | some x, some y => qLeB x y && qLeB y x
  | some _, Option.none => false
  | Option.none, some _ => false
  | Option.none, Option.none =>
    match a, b with
    | .str s, .str t => s == t
    | .none, .none => true
    | _, _ => false

/-- Python `str()` of a scalar; containers are rendered one level deep
(the source only ever stringifies flat containers of scalars). -/
def pyScalarStr : PyVal → String
  | .none => "None"
  | .bool true => "True"
  | .bool false => "False"
  | .int n => toString n
  | .float q => if q.den == 1 then toString q.num ++ ".0" else toString q.num ++ "/" ++ toString q.den
  | .str s => s
  | .list _ => "[...]"
  | .tuple _ => "(...)"
  | .dict _ => "\x7b...\x7d"

/-- Python `repr()` restricted to one nesting level: scalars are exact,
strings are quoted, deeper nesting falls back to a marker (the source only
stringifies flat containers, so deeper cases are never observed). -/
def pyScalarRepr (v : PyVal) : String :=
  match v with
  | .str s => String.singleton (Char.ofNat 39) ++ s ++ String.singleton (Char.ofNat 39)
  | v => pyScalarStr v

/-- Python `str(v)`: identity on strings, `repr`-style inside containers. -/
def pyStr : PyVal → String
  | .str s => s
  | .list xs => "[" ++ String.intercalate ", " (xs.map pyScalarRepr) ++ "]"
  | .tuple xs => "(" ++ String.intercalate ", " (xs.map pyScalarRepr) ++ ")"
  | .dict kvs =>
      "\x7b" ++ String.intercalate ", "
        (kvs.map (fun kv => pyScalarRepr (.str kv.1) ++ ": " ++ pyScalarRepr kv.2)) ++ "\x7d"
  | v => pyScalarStr v

/-- Python iteration (`for x in v`): lists and tuples yield elements,
strings yield characters, dicts yield their keys; other truthy values
raise `TypeError`. -/
def pyIterate : PyVal → Except String (List PyVal)
  | .list xs => .ok xs
  | .tuple xs => .ok xs
  | .str s => .ok (s.toList.map (fun c => .str c.toString))
  | .dict kvs => .ok (kvs.map (fun kv => .str kv.1))
  | _ => .error "TypeError: object is not iterable"

/-- Python subscription `v[i]` with a nonnegative integer index. -/
def pySubscript (v : PyVal) (i : Nat) : Except String PyVal :=
  match v with
  | .list xs => if i < xs.length then .ok (xs.getD i .none) else .error "IndexError: list index out of range"
  | .tuple xs => if i < xs.length then .ok (xs.getD i .none) else .error "IndexError: tuple index out of range"
  | .str s => if i < s.length then .ok (.str ((s.toList.getD i (Char.ofNat 32)).toString)) else .error "IndexError: string index out of range"
  | .dict _ => .error "KeyError"
  | _ => .error "TypeError: object is not subscriptable"

/-- Unguarded element access used only under an explicit bounds guard in the
source (`discarded[i] if ... and i < len(discarded) else ...`). -/
def pyGetRaw (v : PyVal) (i : Nat) : PyVal :=
  match v with
  | .list xs => xs.getD i .none
  | .tuple xs => xs.getD i .none
  | _ => .none

/-- Test for `isinstance(v, (list, tuple))`. -/
def isListOrTuple : PyVal → Bool
  | .list _ => true
  | .tuple _ => true
  | _ => false

/-- Python `len` for sequence values (only used under an `isinstance` guard). -/
def pyLen : PyVal → Nat
  | .list xs => xs.length
  | .tuple xs => xs.length
  | .str s => s.length
  | .dict kvs => kvs.length
  | _ => 0

/-- Nonempty all-digit character list to its numeric value. -/
def digitsToNat (cs : List Char) : Option Nat :=
  if cs ≠ [] ∧ cs.all Char.isDigit then
    some (cs.foldl (fun a c => a * 10 + (c.toNat - 48)) 0)
  else Option.none

/-- Python `float(s)` on a string: optional sign, digits with an optional
decimal point (scientific notation and surrounding whitespace are not
exercised by the source and are not modelled). -/
def parseFloatStr (s : String) : Option ℚ :=
  let cs := s.toList
  let signed : Bool × List Char :=
    match cs with
    | '-' :: r => (true, r)
    | '+' :: r => (false, r)
    | r => (false, r)
  let body := signed.2
  let result : Option ℚ :=
    match body.splitOn '.' with
    | [a] => (digitsToNat a).map (fun n => mkRat n 1)
    | [a, b] =>
      if (a ≠ [] ∨ b ≠ []) ∧ a.all Char.isDigit ∧ b.all Char.isDigit then
        let aN : Nat := a.foldl (fun x c => x * 10 + (c.toNat - 48)) 0
        let bN : Nat := b.foldl (fun x c => x * 10 + (c.toNat - 48)) 0
        some (mkRat ((aN * 10 ^ b.length + bN : Nat) : Int) (10 ^ b.length))
      else Option.none
    | _ => Option.none
  result.map (fun q => if signed.1 then mkRat (-q.num) q.den else q)

/-- Python `int(s)` on a string: optional sign and digits. -/
def parseIntStr (s : String) : Option Int :=
  let cs := s.toList
  match cs with
  | '-' :: r => (digitsToNat r).map (fun n => -(n : Int))
  | '+' :: r => (digitsToNat r).map (fun n => (n : Int))
  | r => (digitsToNat r).map (fun n => (n : Int))

/-- Python `float(v)`. -/
def pyToFloat : PyVal → Except String ℚ
  | .int n => .ok (mkRat n 1)
  | .bool b => .ok (mkRat (if b then 1 else 0) 1)
  | .float q => .ok q
  | .str s =>
    match parseFloatStr s with
    | some q => .ok q
    | Option.none => .error "ValueError: could not convert string to float"
  | _ => .error "TypeError: argument must be a string or a number"

/-- Floor of a rational through integer floor division. -/
def ratFloor (q : ℚ) : Int := Int.fdiv q.num q.den

/-- Truncation toward zero, the behaviour of Python `int(float)`. -/
def ratTrunc (q : ℚ) : Int := if 0 ≤ q.num then ratFloor q else -(Int.fdiv (-q.num) q.den)

/-- Python `int(v)`. -/
def pyToInt : PyVal → Except String Int
  | .int n => .ok n
  | .bool b => .ok (if b then 1 else 0)
  | .float q => .ok (ratTrunc q)
  | .str s =>
    match parseIntStr s with
    | some n => .ok n
    | Option.none => .error "ValueError: invalid literal for int"
  | _ => .error "TypeError: int() argument"

/-- Is an `Except` result a success? -/
def exceptIsOk : Except String α → Bool
  | .ok _ => true
  | .error _ => false

/-- Localization table `MJAI_TILE_2_NL` of the source. -/
def MJAI_TILE_2_NL : List (String × String) :=
  [("1m", "一万"), ("2m", "二万"), ("3m", "三万"), ("4m", "四万"), ("5mr", "红五万"),
   ("5m", "五万"), ("6m", "六万"), ("7m", "七万"), ("8m", "八万"), ("9m", "九万"),
   ("1p", "一饼"), ("2p", "二饼"), ("3p", "三饼"), ("4p", "四饼"), ("5pr", "红五饼"),
   ("5p", "五饼"), ("6p", "六饼"), ("7p", "七饼"), ("8p", "八饼"), ("9p", "九饼"),
   ("1s", "一索"), ("2s", "二索"), ("3s", "三索"), ("4s", "四索"), ("5sr", "红五索"),
   ("5s", "五索"), ("6s", "六索"), ("7s", "七索"), ("8s", "八索"), ("9s", "九索"),
   ("E", "东"), ("S", "南"), ("W", "西"), ("N", "北"), ("P", "白"), ("F", "发"), ("C", "中"),
   ("?", "未知")]

/-- Dora successor table `DORA_DORA_MARKERS` of the source. -/
def DORA_DORA_MARKERS : List (String × String) :=
  [("1m", "2m"), ("2m", "3m"), ("3m", "4m"), ("4m", "5m"), ("5m", "6m"), ("6m", "7m"),
   ("7m", "8m"), ("8m", "9m"), ("9m", "1m"),
   ("1p", "2p"), ("2p", "3p"), ("3p", "4p"), ("4p", "5p"), ("5p", "6p"), ("6p", "7p"),
   ("7p", "8p"), ("8p", "9p"), ("9p", "1p"),
   ("1s", "2s"), ("2s", "3s"), ("3s", "4s"), ("4s", "5s"), ("5s", "6s"), ("6s", "7s"),
   ("7s", "8s"), ("8s", "9s"), ("9s", "1s"),
   ("E", "S"), ("S", "W"), ("W", "N"), ("N", "E"),
   ("P", "F"), ("F", "C"), ("C", "P")]

/-- Action name table `ACTION_NL` of the source. -/
def ACTION_NL : List (String × String) :=
  [("reach", "立直"), ("pon", "碰"), ("chi", "吃"), ("chi_low", "吃(低)"),
   ("chi_mid", "吃(中)"), ("chi_high", "吃(高)"), ("kan_select", "选择杠"),
   ("dahai", "打牌"), ("kakan", "加杠"), ("daiminkan", "大明杠"), ("ankan", "暗杠"),
   ("zimo", "自摸"), ("hora", "和了"), ("ryukyoku", "流局"), ("nukidora", "抜きドラ"),
   ("none", "过")]

/-- Relative-seat table `ACTION_NL_ADV` of the source (integer keys). -/
def ACTION_NL_ADV : List (Int × String) :=
  [(-3, "下家"), (-2, "对家"), (-1, "上家"), (0, "自己"), (1, "下家"), (2, "对家"), (3, "上家")]

/-- Source `mjai_to_natural`: localization lookup with identity fallback. -/
def mjai_to_natural (tile : String) : String :=
  (List.lookup tile MJAI_TILE_2_NL).getD tile

/-- The value of the interpolation of `mjai_to_natural(t)` for an arbitrary
Python value `t`: a string is looked up, an unhashable container raises,
any other hashable value is absent from the table and is returned as
itself (which the f-string then stringifies). -/
def mjai_to_natural_py : PyVal → Except String String
  | .str s => .ok (mjai_to_natural s)
  | .list _ => .error "TypeError: unhashable type"
  | .dict _ => .error "TypeError: unhashable type"
  | v => .ok (pyStr v)

/-- Joins the per-tile fragments of source `tile_list_to_nl`, propagating
the exceptions that its `try` block catches. -/
def tileTypeFragments : List PyVal → PyVal → Nat → Except String (List String)
  | [], _, _ => .ok []
  | t :: ts, types, i => do
    let ty ← pySubscript types i
    let s ← mjai_to_natural_py t
    let rest ← tileTypeFragments ts types (i + 1)
    .ok ((pyStr ty ++ s) :: rest)

/-- Source `tile_list_to_nl`. -/
def tile_list_to_nl (tiles : PyVal) (tile_types : PyVal) : String :=
  if ¬ pyBool tiles then "无"
  else
    match (do
      let elems ← pyIterate tiles
      tileTypeFragments elems tile_types 0) with
    | .ok parts => String.intercalate "、" parts
    | .error _ => pyStr tiles

/-- Joins the per-tile fragments of source `tile_list_to_nl_single`. -/
def tileFragments : List PyVal → Except String (List String)
  | [] => .ok []
  | t :: ts => do
    let s ← mjai_to_natural_py t
    let rest ← tileFragments ts
    .ok (s :: rest)

/-- Source `tile_list_to_nl_single`. -/
def tile_list_to_nl_single (tiles : PyVal) : String :=
  if ¬ pyBool tiles then "无"
  else
    match (do
      let elems ← pyIterate tiles
      tileFragments elems) with
    | .ok parts => String.intercalate "、" parts
    | .error _ => pyStr tiles

/-- One step of `DORA_DORA_MARKERS.get(marker)`: a string key is looked
up, an unhashable key raises, any other key is absent. -/
def dora_get : PyVal → Except String (Option String)
  | .str s => .ok (List.lookup s DORA_DORA_MARKERS)
  | .list _ => .error "TypeError: unhashable type"
  | .dict _ => .error "TypeError: unhashable type"
  | _ => .ok Option.none

/-- The accumulation loop of source `get_dora_from_markers` (appends the
looked-up dora when the lookup produced a truthy value). -/
def dora_loop : List PyVal → Except String (List String)
  | [] => .ok []
  | m :: rest => do
    let d ← dora_get m
    let tail ← dora_loop rest
    match d with
    | some dora => if dora ≠ "" then .ok (dora :: tail) else .ok tail
    | Option.none => .ok tail

/-- Source `get_dora_from_markers`. -/
def get_dora_from_markers (dora_markers : PyVal) : Except String (List String) :=
  if ¬ pyBool dora_markers then .ok []
  else do
    let ms ← pyIterate dora_markers
    dora_loop ms

/-- Source `melds_to_nl` inner fragments; `melds_types[j]` is subscripted
without any enclosing `try`, so its exceptions escape. -/
def meldFragments : List PyVal → PyVal → Nat → Except String (List String)
  | [], _, _ => .ok []
  | m :: ms, types, j =>
    match m with
    | .list ts => do
        let tj ← pySubscript types j
        let inner ← tileFragments ts
        let rest ← meldFragments ms types (j + 1)
        .ok (("[" ++ pyStr tj ++ ": " ++ String.intercalate "、" inner ++ "]") :: rest)
    | .tuple ts => do
        let tj ← pySubscript types j
        let inner ← tileFragments ts
        let rest ← meldFragments ms types (j + 1)
        .ok (("[" ++ pyStr tj ++ ": " ++ String.intercalate "、" inner ++ "]") :: rest)
    | _ => do
        let rest ← meldFragments ms types (j + 1)
        .ok (pyStr m :: rest)

/-- Source `melds_to_nl`. -/
def melds_to_nl (melds : PyVal) (melds_types : PyVal) : Except String String :=
  if ¬ pyBool melds then .ok "无"
  else do
    let elems ← pyIterate melds
    let parts ← meldFragments elems melds_types 0
    .ok (String.intercalate "，" parts)

/-- Source `disc_type_to_nl`: falsy input yields the empty string, an
iterable yields a list of 摸切/手切 markers, a truthy non-iterable is
stringified by the `except` clause. -/
def disc_type_to_nl (discard_type : PyVal) : PyVal :=
  if ¬ pyBool discard_type then .str ""
  else
    match pyIterate discard_type with
    | .ok elems => .list (elems.map (fun e => .str (if pyBool e then "摸切" else "手切")))
    | .error _ => .str (pyStr discard_type)

/-- Lookup `ACTION_NL.get(typ)` for an arbitrary key (no default): string
keys are looked up, unhashable keys raise, other keys are absent. -/
def ACTION_NL_get_opt : PyVal → Except String PyVal
  | .str s =>
    .ok (match List.lookup s ACTION_NL with
         | some d => .str d
         | Option.none => .none)
  | .list _ => .error "TypeError: unhashable type"
  | .dict _ => .error "TypeError: unhashable type"
  | _ => .ok .none

/-- Lookup `ACTION_NL.get(typ, typ)` for an arbitrary key. -/
def ACTION_NL_get_self : PyVal → Except String PyVal
  | .str s => .ok (.str ((List.lookup s ACTION_NL).getD s))
  | .list _ => .error "TypeError: unhashable type"
  | .dict _ => .error "TypeError: unhashable type"
  | v => .ok v

/-- Python numeric subtraction `target - actor` as used by
`melds_info_to_nl`. -/
def pySubNum (a b : PyVal) : Except String ℚ :=
  match pyNum a, pyNum b with
  | some x, some y => .ok (qAdd x (mkRat (-y.num) y.den))
  | _, _ => .error "TypeError: unsupported operand type for -"

/-- Lookup `ACTION_NL_ADV.get(q)` where integral numeric keys hash like
integers in Python. -/
def ACTION_NL_ADV_get (q : ℚ) : Option String :=
  if q.den == 1 then List.lookup q.num ACTION_NL_ADV else Option.none

/-- The element loop of source `melds_info_to_nl` (inside its `try`). -/
def meldInfoParts : List PyVal → Except String (List PyVal)
  | [] => .ok []
  | info :: rest =>
    match info with
    | .list xs =>
      if xs.length ≥ 1 then do
        let typ := xs.getD 0 .none
        let actor := xs.getD 1 .none
        let target := xs.getD 2 .none
        let desc ← ACTION_NL_get_opt typ
        if pyBool target then do
          let diff ← pySubNum target actor
          let r ← meldInfoParts rest
          .ok (.str (pyStr desc ++ "（来自" ++ pyStr (match ACTION_NL_ADV_get diff with
                      | some s => PyVal.str s
                      | Option.none => PyVal.none) ++ "）") :: r)
        else do
          let r ← meldInfoParts rest
          .ok (desc :: r)
      else do
        let r ← meldInfoParts rest
        .ok (.str (pyStr info) :: r)
    | .tuple xs =>
      if xs.length ≥ 1 then do
        let typ := xs.getD 0 .none
        let actor := xs.getD 1 .none
        let target := xs.getD 2 .none
        let desc ← ACTION_NL_get_opt typ
        if pyBool target then do
          let diff ← pySubNum target actor
          let r ← meldInfoParts rest
          .ok (.str (pyStr desc ++ "（来自" ++ pyStr (match ACTION_NL_ADV_get diff with
                      | some s => PyVal.str s
                      | Option.none => PyVal.none) ++ "）") :: r)
        else do
          let r ← meldInfoParts rest
          .ok (desc :: r)
      else do
        let r ← meldInfoParts rest
        .ok (.str (pyStr info) :: r)
    | _ => do
      let r ← meldInfoParts rest
      .ok (.str (pyStr info) :: r)

/-- Source `melds_info_to_nl`: falsy input yields the empty string, the
`try` body builds a list of parts, the `except` clause returns the input
unchanged. -/
def melds_info_to_nl (melds_info : PyVal) : PyVal :=
  if ¬ pyBool melds_info then .str ""
  else
    match (do
      let elems ← pyIterate melds_info
      meldInfoParts elems) with
    | .ok parts => .list parts
    | .error _ => melds_info

/-- Source `action_to_nl`, tuple/list arm (the two isinstance cases share
one body in the source). -/
def action_seq_to_nl (xs : List PyVal) : Except String String :=
  match xs with
  | .str s :: tile :: _ =>
    if (List.lookup s ACTION_NL).isSome then
      let desc := (List.lookup s ACTION_NL).getD s
      if s == "dahai" then
        if pyBool tile then do
          let t ← mjai_to_natural_py tile
          .ok ("打" ++ t)
        else .ok "打"
      else
        if pyBool tile then do
          let t ← mjai_to_natural_py tile
          .ok (desc ++ " " ++ t)
        else .ok desc
    else
      match xs with
      | [.str a, .float _] => .ok (mjai_to_natural a)
      | [.str a, .int _] => .ok (mjai_to_natural a)
      | [.str a, .bool _] => .ok (mjai_to_natural a)
      | _ => .ok (String.intercalate " " (xs.map pyStr))
  | _ => .ok (String.intercalate " " (xs.map pyStr))

/-- Source `action_to_nl`, dict arm. -/
def action_dict_to_nl (kvs : List (String × PyVal)) : Except String String := do
  let t0 := (List.lookup "type" kvs).getD .none
  let typ := if pyBool t0 then t0 else (List.lookup "action" kvs).getD .none
  let p0 := (List.lookup "pai" kvs).getD .none
  let pai := if pyBool p0 then p0 else (List.lookup "tile" kvs).getD .none
  if pyBool typ then do
    let desc ← ACTION_NL_get_self typ
    if pyEq typ (.str "dahai") then
      if pyBool pai then do
        let t ← mjai_to_natural_py pai
        .ok ("打" ++ t)
      else .ok "打"
    else
      if pyBool pai then do
        let t ← mjai_to_natural_py pai
        .ok (pyStr desc ++ " " ++ t)
      else .ok (pyStr desc)
  else
    if pyBool pai then mjai_to_natural_py pai
    else .ok (pyStr (.dict kvs))

/-- Source `action_to_nl`: converts an action representation (string,
tuple or list, dict, anything else) to display text; the discard action
is special-cased to the short form 打X. -/
def action_to_nl (act : PyVal) : Except String String :=
  match act with
  | .none => .ok "无"
  | .tuple xs => action_seq_to_nl xs
  | .list xs => action_seq_to_nl xs
  | .dict kvs => action_dict_to_nl kvs
  | .str s =>
    if (List.lookup s ACTION_NL).isSome then
      if s == "dahai" then .ok "打" else .ok ((List.lookup s ACTION_NL).getD s)
    else .ok (mjai_to_natural s)
  | v => .ok (pyStr v)

/-- Rounding of ten times a rational to the nearest integer, ties to
even, computed on numerator and denominator: this is the digit produced
by the one-decimal float formatting of the source. -/
def roundTenths (q : ℚ) : Int :=
  let n := q.num * 10
  let d := (q.den : Int)
  let f := Int.fdiv n d
  let r2 := 2 * (n - f * d)
  if r2 < d then f else if d < r2 then f + 1 else if f % 2 = 0 then f else f + 1

/-- One-decimal fixed formatting of a nonnegative count of tenths. -/
def fmtTenths (m : Int) : String := toString (m / 10) ++ "." ++ toString (m % 10)

/-- Python `f-string` one-decimal formatting of a float. -/
def fmtOneDecimal (q : ℚ) : String :=
  let n := roundTenths q
  if n < 0 then "-" ++ fmtTenths (-n) else fmtTenths n

/-- Source `_fmt_prob` (nested in `explain`): `None` renders nothing, a
non-numeric value renders verbatim in parentheses, a fraction in [0,1]
renders as a percentage, a value in [1,100] renders as an already scaled
percentage, anything else renders as the bare number. -/
def fmt_prob (p : PyVal) : String :=
  match p with
  | .none => ""
  | p =>
    match pyToFloat p with
    | .error _ => " (" ++ pyStr p ++ ")"
    | .ok pv =>
      if qLeB (mkRat 0 1) pv && qLeB pv (mkRat 1 1) then
        " (" ++ fmtOneDecimal (qMul pv (mkRat 100 1)) ++ "%)"
      else if qLeB (mkRat 1 1) pv && qLeB pv (mkRat 100 1) then
        " (" ++ fmtOneDecimal pv ++ "%)"
      else " (" ++ pyScalarStr (.float pv) ++ ")"

/-- Parameters standing in for `common/mj_helper.py`, which the source
imports as `mjh` but which is not part of the provided sources.
Modelled from the spec: `softmax` normalizes the raw scores into
probabilities (its exact values are irrelevant to every claim, so it is
kept parametric), and the two fixed action vocabularies select by the
three-player flag. -/
structure MjHelper where
  softmax : List ℚ → List ℚ
  MJAI_MASK_LIST : List String
  MJAI_MASK_LIST_3P : List String

/-- Vocabulary selected by the three-player flag, as in the source. -/
def maskListOf (h : MjHelper) (is_3p : Bool) : List String :=
  if is_3p then h.MJAI_MASK_LIST_3P else h.MJAI_MASK_LIST

/-- Modelled from the spec: `mjh.mask_bits_to_bool_list` (missing from the
provided sources) decodes the bit-encoded legality mask into a boolean
sequence over the fixed action vocabulary. -/
def mask_bits_to_bool_list (len : Nat) (bits : Nat) : List Bool :=
  (List.range len).map bits.testBit

/-- Name of a mask position: the vocabulary entry when in range, the
`idx_i` placeholder otherwise (source line `mask_list[i] if i <
len(mask_list) else ...`). -/
def optName (mask_list : List String) (i : Nat) : String :=
  if i < mask_list.length then mask_list.getD i "" else "idx_" ++ toString i

/-- The pairing loop of the source manual decode: walks the mask, pairing
each true position (in ascending index order) with the next unconsumed
probability, zero when the probabilities are exhausted. -/
def pair_loop (mask_list : List String) (weights : List ℚ) :
    List Bool → Nat → Nat → List (String × ℚ)
  | [], _, _ => []
  | b :: rest, i, k =>
    if b then
      (optName mask_list i, weights.getD k 0) :: pair_loop mask_list weights rest (i + 1) (k + 1)
    else pair_loop mask_list weights rest (i + 1) k

/-- Descending order on probability used by the sort of the decoder. -/
def probGE (a b : String × ℚ) : Prop := b.2 ≤ a.2

instance : DecidableRel probGE := fun a b => inferInstanceAs (Decidable (b.2 ≤ a.2))

instance : IsTotal (String × ℚ) probGE := ⟨fun a b => le_total b.2 a.2⟩

instance : IsTrans (String × ℚ) probGE := ⟨fun _ _ _ hab hbc => le_trans hbc hab⟩

/-- The stable descending sort `sorted(option_list, key=..., reverse=True)`
of the source, as an insertion sort. -/
def sortProbDesc (l : List (String × ℚ)) : List (String × ℚ) :=
  List.insertionSort probGE l

/-- Extraction of a numeric list (Python would raise inside `softmax` on
anything else). -/
def pyQList : PyVal → Except String (List ℚ)
  | .list xs => qElems xs
  | .tuple xs => qElems xs
  | _ => .error "TypeError: argument must be a sequence of numbers"
where
  qElems : List PyVal → Except String (List ℚ)
    | [] => .ok []
    | v :: vs =>
      match pyNum v with
      | some q => do
        let rest ← qElems vs
        .ok (q :: rest)
      | Option.none => .error "TypeError: a number is required"

/-- Extraction of the nonnegative integer mask (Python bit operations on
anything else would raise). -/
def pyMaskBits : PyVal → Except String Nat
  | .int n => if 0 ≤ n then .ok n.toNat else .error "ValueError: negative mask"
  | .bool b => .ok (if b then 1 else 0)
  | _ => .error "TypeError: mask_bits must be an integer"

/-- Modelled from the spec: `mjh.meta_to_options` (missing from the
provided sources) decodes the mask into the fixed vocabulary, applies the
softmax to the raw scores, pairs true mask positions in ascending index
order with successive probabilities (zero-filling when exhausted) and
sorts descending by probability; it raises on malformed fields. -/
def meta_to_options (h : MjHelper) (meta : List (String × PyVal)) (is_3p : Bool) :
    Except String (List (String × ℚ)) := do
  let mask_list := maskListOf h is_3p
  let q_values ← pyQList ((List.lookup "q_values" meta).getD .none)
  let bits ← pyMaskBits ((List.lookup "mask_bits" meta).getD .none)
  let mask := mask_bits_to_bool_list mask_list.length bits
  let weight_values := h.softmax q_values
  .ok (sortProbDesc (pair_loop mask_list weight_values mask 0 0))

/-- The manual fallback decode of the source (the body of the inner `try`
of `parse_ai_recommendation`), using `.get` defaults for the two fields. -/
def manual_meta_parse (h : MjHelper) (meta : List (String × PyVal)) (is_3p : Bool) :
    Except String (List (String × ℚ)) := do
  let mask_list := maskListOf h is_3p
  let q_values ← pyQList ((List.lookup "q_values" meta).getD (.list []))
  let mask_bits ← pyMaskBits ((List.lookup "mask_bits" meta).getD (.int 0))
  let mask := mask_bits_to_bool_list mask_list.length mask_bits
  let weight_values := h.softmax q_values
  .ok (sortProbDesc (pair_loop mask_list weight_values mask 0 0))

/-- A decoded (action, probability) pair as the Python tuple it is. -/
def mkPair (p : PyVal × PyVal) : PyVal := .tuple [p.1, p.2]

/-- The meta branch of `parse_ai_recommendation`: primary helper decode,
manual fallback, then the two nested `except` clauses. -/
def decode_meta (h : MjHelper) (meta : List (String × PyVal)) (is_3p : Bool) :
    List PyVal × List String :=
  match meta_to_options h meta is_3p with
  | .ok opts =>
    (opts.map (fun p => mkPair (.str p.1, .float p.2)), ["来自 meta (q_values + mask_bits)"])
  | .error _ =>
    match manual_meta_parse h meta is_3p with
    | .ok opts =>
      (opts.map (fun p => mkPair (.str p.1, .float p.2)), ["来自 meta (手动解析 q_values + mask_bits)"])
    | .error e2 => ([], ["解析 meta 出错: " ++ e2])

/-- Python `a > b` on dictionary values, as invoked by the sort of the
action-to-score branch: numbers compare numerically, strings compare
lexicographically, any other combination raises `TypeError` (which the
enclosing `except` of the source turns into the fixed diagnostic). -/
def pyGT (a b : PyVal) : Except String Bool :=
  match pyNum a, pyNum b with
  | some x, some y => .ok (qLtB y x)
  | some _, Option.none => .error "TypeError: comparison not supported"
  | Option.none, some _ => .error "TypeError: comparison not supported"
  | Option.none, Option.none =>
    match a, b with
    | .str s, .str t => .ok (decide (t < s))
    | _, _ => .error "TypeError: comparison not supported"

/-- Stable descending insertion of one dictionary item by value. -/
def pyInsertDesc (x : String × PyVal) :
    List (String × PyVal) → Except String (List (String × PyVal))
  | [] => .ok [x]
  | y :: ys => do
    let g ← pyGT y.2 x.2
    if g then do
      let r ← pyInsertDesc x ys
      .ok (y :: r)
    else .ok (x :: y :: ys)

/-- The `sorted(ai_reco.items(), key=lambda kv: kv[1], reverse=True)` of
the source: a stable descending sort by value that raises when two values
are incomparable. -/
def pySortDescByVal : List (String × PyVal) → Except String (List (String × PyVal))
  | [] => .ok []
  | x :: xs => do
    let s ← pySortDescByVal xs
    pyInsertDesc x s

/-- The tail of the `elif` chain of `parse_ai_recommendation` (the
`action`, `selected` and action-to-score cases). -/
def fallback_rest (kvs : List (String × PyVal)) : List PyVal × List String :=
  match List.lookup "action" kvs with
  | some a => ([mkPair (a, (List.lookup "prob" kvs).getD .none)], ["来自 action 字段"])
  | Option.none =>
    match List.lookup "selected" kvs with
    | some sel => ([mkPair (sel, (List.lookup "prob" kvs).getD .none)], ["来自 selected 字段"])
    | Option.none =>
      match pySortDescByVal kvs with
      | .ok items => (items.map (fun kv => mkPair (.str kv.1, kv.2)), ["从字典 (action->score) 解析"])
      | .error _ => ([], ["无法解析推荐"])

/-- The `elif` chain of `parse_ai_recommendation` below the meta branch:
an `options` list is used verbatim, an `action` or `selected` field makes
a one-element list with the adjacent `prob`, any other dict is sorted as
an action-to-score mapping (with the diagnostic fallback on failure), and
a non-dict payload produces nothing. -/
def fallback_branches (ai_reco : PyVal) : List PyVal × List String :=
  match ai_reco with
  | .dict kvs =>
    match List.lookup "options" kvs with
    | some (.list opts) => (opts, ["来自 options 字段"])
    | _ => fallback_rest kvs
  | _ => ([], [])

/-- Selection of `meta_source` in `parse_ai_recommendation`: a nested
`meta` dict wins, else a dict that itself carries both `q_values` and
`mask_bits`. -/
def select_meta_source (ai_reco : PyVal) : Option (List (String × PyVal)) :=
  match ai_reco with
  | .dict kvs =>
    match List.lookup "meta" kvs with
    | some (.dict m) => some m
    | _ =>
      if (List.lookup "q_values" kvs).isSome && (List.lookup "mask_bits" kvs).isSome then
        some kvs
      else Option.none
  | _ => Option.none

/-- The branch selection of `parse_ai_recommendation` (everything between
the emptiness test and the final truncation loop). -/
def parse_branch (h : MjHelper) (ai_reco : PyVal) (is_3p : Bool) :
    List PyVal × List String :=
  match select_meta_source ai_reco with
  | some meta =>
    if (!meta.isEmpty) && (List.lookup "q_values" meta).isSome && (List.lookup "mask_bits" meta).isSome then
      decode_meta h meta is_3p
    else fallback_branches ai_reco
  | Option.none => fallback_branches ai_reco

/-- Python tuple unpacking `act, prob = o` of one option. -/
def unpack2 : PyVal → Except String (PyVal × PyVal)
  | .tuple [a, b] => .ok (a, b)
  | .list [a, b] => .ok (a, b)
  | .tuple _ => .error "ValueError: wrong number of values to unpack"
  | .list _ => .error "ValueError: wrong number of values to unpack"
  | .str s =>
    match s.toList with
    | [c1, c2] => .ok (.str c1.toString, .str c2.toString)
    | _ => .error "ValueError: wrong number of values to unpack"
  | .dict [kv1, kv2] => .ok (.str kv1.1, .str kv2.1)
  | .dict _ => .error "ValueError: wrong number of values to unpack"
  | _ => .error "TypeError: cannot unpack non-iterable object"

/-- The `try/except` around `action_to_nl` in the final loop of
`parse_ai_recommendation`: a raising render falls back to `str(act)`. -/
def renderedAction (act : PyVal) : String :=
  match action_to_nl act with
  | .ok s => s
  | .error _ => pyStr act

/-- The final loop of `parse_ai_recommendation` (continued): one retained
option is unpacked (which can raise), rendered with the `except` fallback
to `str(act)`, and consed onto the rest. -/
def format_options_loop : List PyVal → Except String (List (String × PyVal))
  | [] => .ok []
  | o :: rest =>
    match unpack2 o with
    | .error e => .error e
    | .ok ap =>
      match format_options_loop rest with
      | .error e => .error e
      | .ok r => .ok ((renderedAction ap.1, ap.2) :: r)

/-- Source `parse_ai_recommendation`: returns the rendered top-two options
and the joined provenance string (the `top_k` request parameter does not
affect the fixed truncation to two). -/
def parse_ai_recommendation (h : MjHelper) (ai_reco : PyVal) (is_3p : Bool) (top_k : Nat) :
    Except String (List (String × PyVal) × String) :=
  if ¬ pyBool ai_reco then .ok ([], "无")
  else
    match format_options_loop ((parse_branch h ai_reco is_3p).1.take 2) with
    | .ok formatted => .ok (formatted, String.intercalate "；" (parse_branch h ai_reco is_3p).2)
    | .error e => .error e
/-- The fixed instructional text block appended by `explain`
(static data; reproduced verbatim from the source). -/
def INSTRUCTION_TEXT : String :=
  "基于下面的准则，结合AI给出的概率，分析打各张牌的原因：
​​一、战略方针制定：明确手牌目标​​
1.​​差形起手保留可能性​​
•牌效低时优先保留高潜力役种（国士/全带幺九），而非强推低打点门清。
•​​关键操作​​：保留8种以上幺九牌时，切低效搭子，维持国士/混全可能性。
2.终局目标导向​​
•根据分差选择路线：
•大差落后​​：切低效牌，保留三色/混一色变化，博高打点。
•避四局​​：优先安全牌管理，避免放铳。
​​二、进张效率优化：牌型价值最大化​​
1.​消除重叠进张​​
•重叠搭子（如3饼+6饼）优先处理。
•愚形搭子（边张/坎张）价值低于役牌对子。
2.​改良空间评估​​
•中张牌仅能改良为愚形时，优先舍弃。
•保留一杯口/三色同顺潜力牌，牺牲低价值进张。
​​三、攻防平衡：安全牌与危险牌管理​​
1.​危险牌提前处理​​
•推测对手立直前，切中张危险牌，保留现物安牌。
•亲家立直时，客风作安牌保留。
2.​安全度微小差异利用​​
•进张相近时，选择对特定对手更安全的牌。
​​四、局势与信息解读​​
1.​​舍牌信息分析​​
•对手摸切/手切动作反映安全度。
•上家手切1索后切2索 → 可能持有4索。
2.​对手类型针对性应对​​
•门清型对手：保留安牌。
•鸣牌型对手：警惕速攻，优先处理对其危险牌。
​​五、打点与速度权衡​​
1.​亲家/平场提速​​
•保留自风（东）摸对后鸣牌加速，打点不逊门清。
•若役牌非自风（如中），直接切牌追求立直。
2.​差局博高打点​​
•四位时：开杠博里宝，保留三色/混一色变化。

​​核心原则​​：何切是风险与回报的动态权衡，需同步评估「手牌潜力」「当前局势」「对手信息」「风格偏好」，而非依赖单一标准。
                 
对于AI给出的若干个推荐选项，请你：
对于每个选项，给出一个词概括AI为什么给出这样的概率。然后用一句简短的话具体分析这个选项的优缺点。
请用类似于以下的格式输出：
九万：终盘凹打点；南四局落后较多，需要博高打点，九万打出后可以断幺。
碰：速攻；自己已经是一位了，碰牌可以加速和牌，不追求打点。
过：安全牌防守；亲家立直，放铳风险高，自己牌向听数高且打点低，对攻风险大于收益。
三饼：默听；听的牌是立直家现物，可以偷现。
八索：立直；默听无役，南场落后，需要打点。
三万：牌效；三万和六万是重复进张，打出三万不会损失六万的进张。
吃：牌效；对于四七饼场上已经现出5枚，存量很不乐观，吃牌可以保留和牌可能。
一万：防守；已经接近尾巡，自己手里没有宝牌且两向听，安全地打出一万可以降低放铳大牌。
"

/-- The nested `_get` helper of `explain`: `None` and non-dict objects
yield the default, dicts use `.get`. -/
def pyGetAttr (obj : PyVal) (key : String) (dflt : PyVal) : PyVal :=
  match obj with
  | .dict kvs => (List.lookup key kvs).getD dflt
  | _ => dflt

/-- The fixed wind rotation of `explain`. -/
def winds : List String := ["东", "南", "西", "北"]

/-- Python `oya + 1` in the header line (numbers only; anything else
raises `TypeError`). -/
def pyAdd1 : PyVal → Except String PyVal
  | .int n => .ok (.int (n + 1))
  | .bool b => .ok (.int ((if b then 1 else 0) + 1))
  | .float q => .ok (.float (qAdd q (mkRat 1 1)))
  | _ => .error "TypeError: unsupported operand type for +"

/-- The seat-label expression `seat_names[i] if i < len(seat_names) else
...` used by the score line and the ledger loop. -/
def seatNameAt (seat_names : List String) (i : Nat) : String :=
  if i < seat_names.length then seat_names.getD i ""
  else "第" ++ toString (i + 1) ++ "位"

/-- Seat-name construction (lines 319 to 326 of the source): positional
labels when the dealer is unknown, wind labels rotated from the dealer
seat otherwise; a non-integer dealer raises. -/
def build_seat_names (oya : PyVal) (seat_count : Nat) : Except String (List String) :=
  match oya with
  | .none => .ok ((List.range seat_count).map (fun idx => "第" ++ toString (idx + 1) ++ "位"))
  | .int oy =>
    .ok ((List.range seat_count).map (fun idx =>
      "第" ++ toString (idx + 1) ++ "位(" ++ winds.getD (((idx : Int) - oy).emod 4).toNat "" ++ "家)"))
  | .bool b =>
    .ok ((List.range seat_count).map (fun idx =>
      "第" ++ toString (idx + 1) ++ "位(" ++
        winds.getD (((idx : Int) - (if b then 1 else 0)).emod 4).toNat "" ++ "家)"))
  | _ => .error "TypeError: unsupported operand type for -"

/-- The `bakaze` localization `.get(bakaze, bakaze)` (line 328). -/
def bakaze_cn_of (bakaze : PyVal) : Except String PyVal :=
  match bakaze with
  | .str s =>
    .ok (.str ((List.lookup s [("E", "东"), ("S", "南"), ("W", "西"), ("N", "北")]).getD s))
  | .list _ => .error "TypeError: unhashable type"
  | .dict _ => .error "TypeError: unhashable type"
  | v => .ok v

/-- The score-line generator (line 342): `int(s)` raises on non-numeric
entries. -/
def scoreParts (seat_names : List String) : List PyVal → Nat → Except String (List String)
  | [], _ => .ok []
  | s :: rest, i => do
    let n ← pyToInt s
    let r ← scoreParts seat_names rest (i + 1)
    .ok ((seatNameAt seat_names i ++ " " ++ toString n ++ "分") :: r)

/-- One iteration of the per-seat ledger loop (lines 350 to 364 of the
source): note that `discarded_type[i]`, `melded_info[i]` and the
`melded[i]` inside the debug `print` are subscripted without any guard,
and that the second assignment to `nm` replaces the wind-bearing seat
label by a plain positional label whenever the seat is not the viewer. -/
def seat_line (seat_names : List String) (self_seat discarded melded discarded_type melded_info player_reached : PyVal)
    (i : Nat) : Except String String := do
  let nm0 := seatNameAt seat_names i
  let nm := if pyEq (.int i) self_seat then nm0 ++ "(我)" else "第" ++ toString (i + 1) ++ "位"
  let dt ← pySubscript discarded_type i
  let dis_types := disc_type_to_nl dt
  let mi ← pySubscript melded_info i
  let melds_infos := melds_info_to_nl mi
  let _ ← pySubscript melded i
  let disc_text :=
    if isListOrTuple discarded && decide (i < pyLen discarded) then
      tile_list_to_nl (pyGetRaw discarded i) dis_types
    else "无"
  let md_text ←
    if isListOrTuple melded && decide (i < pyLen melded) then
      melds_to_nl (pyGetRaw melded i) melds_infos
    else pure "无"
  let reach_flag :=
    match player_reached with
    | .list xs => if i < xs.length then (if pyBool (xs.getD i .none) then "（立直）" else "") else ""
    | .tuple xs => if i < xs.length then (if pyBool (xs.getD i .none) then "（立直）" else "") else ""
    | _ => ""
  .ok (nm ++ reach_flag ++ " 牌河: " ++ disc_text ++ "；副露: " ++ md_text)

/-- The recommendation rendering loop (lines 392 to 393). -/
def recLines : List (String × PyVal) → Nat → Except String (List String)
  | [], _ => .ok []
  | (act, prob) :: rest, idx => do
    let s ← action_to_nl (.str act)
    let r ← recLines rest (idx + 1)
    .ok ((toString (idx + 1) ++ ". " ++ s ++ fmt_prob prob) :: r)

/-- Source `explain` up to the composed prompt: produces the list of text
lines that `explain` joins with newlines and sends to the generative
engine (the external engine call and logging are collaborators outside
the modelled core).  The block computing `meta_lines` (lines 403 to 426)
is omitted: its only output statement is commented out in the source and
all its exceptions are caught, so it has no observable effect. -/
def explain_lines (h : MjHelper) (game_info kyoku_info ai_recommendation : PyVal)
    (is_3p : Bool) (top_k : Nat) : Except String (List String) := do
  let bakaze := pyGetAttr game_info "bakaze" (.str "?")
  let kyoku := pyGetAttr game_info "kyoku" (.str "?")
  let honba := pyGetAttr game_info "honba" (.int 0)
  let kyotaku := pyGetAttr game_info "kyotaku" (.int 0)
  let oya := pyGetAttr game_info "oya" .none
  let dora_marker := pyGetAttr game_info "dora_marker" (pyGetAttr game_info "dora" (.list [.str "?"]))
  let dora ← get_dora_from_markers dora_marker
  let scores :=
    match pyGetAttr game_info "scores" .none with
    | .none => pyGetAttr kyoku_info "scores" .none
    | v => v
  let my_tehai := pyGetAttr game_info "my_tehai" (pyGetAttr game_info "tehai" .none)
  let my_tsumohai := pyGetAttr game_info "my_tsumohai" (pyGetAttr game_info "tsumohai" .none)
  let player_reached := pyGetAttr game_info "player_reached" (pyGetAttr game_info "player_reach" .none)
  let self_seat := pyGetAttr game_info "self_seat" (pyGetAttr game_info "my_seat" .none)
  let discarded := pyGetAttr kyoku_info "discarded" .none
  let melded := pyGetAttr kyoku_info "melded" .none
  let discarded_type := pyGetAttr kyoku_info "discarded_type" .none
  let melded_info := pyGetAttr kyoku_info "melded_info" .none
  let seat_count : Nat :=
    if pyBool scores && isListOrTuple scores then pyLen scores
    else if pyBool discarded && isListOrTuple discarded then pyLen discarded
    else if pyBool melded && isListOrTuple melded then pyLen melded
    else if is_3p then 3 else 4
  let seat_names ← build_seat_names oya seat_count
  let bakaze_cn ← bakaze_cn_of bakaze
  let oyaTxt ←
    match oya with
    | .none => pure "未知"
    | v => do
      let w ← pyAdd1 v
      pure (pyStr w)
  let header0 :=
    "场风: " ++ pyStr bakaze_cn ++ pyStr kyoku ++ "局；本场: " ++ pyStr honba ++
    "本；供托: " ++ pyStr kyotaku ++ "；庄家: " ++ oyaTxt ++ "位；宝牌: " ++
    mjai_to_natural (tile_list_to_nl_single (.list (dora.map .str))) ++ "。"
  let header := if is_3p then header0 ++ "本局是三人麻将。" else header0
  let scoreLine ←
    if pyBool scores then do
      let elems ← pyIterate scores
      let parts ← scoreParts seat_names elems 0
      pure ("分数: " ++ String.intercalate "；" parts)
    else pure "分数: 无"
  let seatLines ← (List.range seat_count).mapM
    (seat_line seat_names self_seat discarded melded discarded_type melded_info player_reached)
  let tsumoTxt ← if pyBool my_tsumohai then mjai_to_natural_py my_tsumohai else pure "无"
  let parsed ← parse_ai_recommendation h ai_recommendation is_3p top_k
  let options := parsed.1
  let recSection ←
    if !options.isEmpty then recLines (options.take top_k) 0
    else
      match ai_recommendation with
      | .dict kvs =>
        if (List.lookup "type" kvs).isSome then do
          let desc ← action_to_nl (.dict kvs)
          let prob := (List.lookup "prob" kvs).getD .none
          pure ["1. " ++ desc ++ fmt_prob prob]
        else pure ["无可解析的推荐"]
      | _ => pure ["无可解析的推荐"]
  .ok (["你是一个专业的日本麻将高手，擅长分析和解读麻将游戏中的策略和技巧。",
        "请基于下列牌局快照和AI推荐，简明扼要地解释AI给出概率的原因。",
        "",
        header,
        scoreLine,
        "",
        "场上弃牌（按位）:"] ++
       seatLines ++
       ["",
        "我的手牌: " ++ (if pyBool my_tehai then tile_list_to_nl_single my_tehai else "未知"),
        "我摸到: " ++ tsumoTxt,
        "",
        "AI 推荐:"] ++
       recSection ++
       ["", INSTRUCTION_TEXT])

/-- The prompt composed by `explain`: its lines joined with newlines.
The subsequent call into the generative engine client is an external
collaborator and is outside the modelled core. -/
def explain_prompt (h : MjHelper) (game_info kyoku_info ai_recommendation : PyVal)
    (is_3p : Bool) (top_k : Nat) : Except String String :=
  (explain_lines h game_info kyoku_info ai_recommendation is_3p top_k).map
    (fun l => String.intercalate "\n" l)

/-- A concrete instantiation of the `mj_helper` parameters, used by the
concrete evaluations below (none of them reaches the meta branch, so the
particular values are irrelevant). -/
def mjh0 : MjHelper := ⟨fun l => l, [], []⟩

/-- A concrete instantiation of the `mj_helper` parameters with a
four-entry vocabulary, used to instantiate the meta-decode theorem. -/
def mjhW : MjHelper := ⟨fun l => l, ["a", "b", "c", "d"], ["x", "y"]⟩

/-- A concrete `meta` record with two raw scores and mask bits 11 (three
true bits, so the pairing exercises the zero fill). -/
def metaW : List (String × PyVal) :=
  [("q_values", .list [.float (mkRat 1 2), .float (mkRat 1 4)]), ("mask_bits", .int 11)]

/-- A concrete four-player `game_info` with dealer seat 0 and viewer
seat 0. -/
def G7 : PyVal := .dict
  [("bakaze", .str "E"), ("kyoku", .int 1), ("honba", .int 0), ("kyotaku", .int 0),
   ("oya", .int 0), ("dora_marker", .list [.str "1m"]),
   ("scores", .list [.int 25000, .int 25000, .int 25000, .int 25000]),
   ("my_tehai", .list [.str "1m", .str "2m"]), ("my_tsumohai", .str "3m"),
   ("player_reached", .list [.bool false, .bool false, .bool false, .bool false]),
   ("self_seat", .int 0)]

/-- A concrete `kyoku_info` with every per-seat field present for the
four seats. -/
def K7 : PyVal := .dict
  [("discarded", .list [.list [.str "9p"], .list [.str "9p"], .list [.str "9p"], .list [.str "9p"]]),
   ("melded", .list [.list [], .list [], .list [], .list []]),
   ("discarded_type", .list [.list [.bool false], .list [.bool false], .list [.bool false], .list [.bool false]]),
   ("melded_info", .list [.list [], .list [], .list [], .list []])]

/-- The nine tile codes of one suit. -/
def suitGroup (c : String) : List String := (List.range 9).map (fun n => toString (n + 1) ++ c)

/-- The four wind tiles in rotation order. -/
def windGroup : List String := ["E", "S", "W", "N"]

/-- The three dragon tiles in rotation order. -/
def dragonGroup : List String := ["P", "F", "C"]

/-- The five disjoint tile groups of the dora successor relation. -/
def tileGroups : List (List String) :=
  [suitGroup "m", suitGroup "p", suitGroup "s", windGroup, dragonGroup]

/-- A success carries a value. -/
theorem exceptIsOk_eq_true {α : Type} {e : Except String α} (h : exceptIsOk e = true) :
    ∃ a, e = .ok a := by
  cases e with
  | ok a => exact ⟨a, rfl⟩
  | error b => simp [exceptIsOk] at h

/-- An association-list lookup hit is a member of the list. -/
theorem lookup_mem {α β : Type} [BEq α] [LawfulBEq α] :
    ∀ {l : List (α × β)} {k : α} {v : β}, List.lookup k l = some v → (k, v) ∈ l := by
  intro l
  induction l with
  | nil => intro k v hkv; simp [List.lookup] at hkv
  | cons p rest ih =>
    intro k v hkv
    rw [List.lookup] at hkv
    by_cases hk : k == p.1
    · rw [hk] at hkv
      cases hkv
      have := eq_of_beq hk
      subst this
      exact List.mem_cons_self _ _
    · rw [Bool.not_eq_true] at hk
      rw [hk] at hkv
      exact List.mem_cons_of_mem _ (ih hkv)

/-- Every successor in the dora table is a nonempty string. -/
theorem dora_value_ne_empty {s d : String}
    (hm : List.lookup s DORA_DORA_MARKERS = some d) : d ≠ "" := by
  have hmem : (s, d) ∈ DORA_DORA_MARKERS := lookup_mem hm
  have hall : ∀ p ∈ DORA_DORA_MARKERS, p.2 ≠ "" := by decide
  exact hall _ hmem

/-- Reduction of a successful `Except` bind. -/
theorem except_bind_ok {α β : Type} (a : α) (f : α → Except String β) :
    (Except.ok a >>= f) = f a := rfl

/-- The dora accumulation loop over string markers is the filtered map of
the successor lookup. -/
theorem dora_loop_map_str (ms : List String) :
    dora_loop (ms.map PyVal.str) =
      .ok (ms.filterMap (fun m => List.lookup m DORA_DORA_MARKERS)) := by
  induction ms with
  | nil => rfl
  | cons s rest ih =>
    rw [List.map_cons, dora_loop, dora_get, ih]
    rw [List.filterMap_cons]
    cases hlk : List.lookup s DORA_DORA_MARKERS with
    | none => rfl
    | some d =>
      simp only [except_bind_ok]
      rw [if_pos (dora_value_ne_empty hlk)]

/-- The rendered-options loop preserves list length on success. -/
theorem format_options_loop_length :
    ∀ (l : List PyVal) (r : List (String × PyVal)),
      format_options_loop l = .ok r → r.length = l.length := by
  intro l
  induction l with
  | nil => intro r hr; cases hr; rfl
  | cons o rest ih =>
    intro r hr
    rw [format_options_loop] at hr
    cases hu : unpack2 o with
    | error e => rw [hu] at hr; cases hr
    | ok ap =>
      rw [hu] at hr
      cases hrest : format_options_loop rest with
      | error e => rw [hrest] at hr; cases hr
      | ok rr =>
        rw [hrest] at hr
        cases hr
        simp [ih rr hrest]

/-- The rendered-options loop always succeeds on a list of built pairs. -/
theorem format_options_loop_map_ok (M : List (PyVal × PyVal)) :
    ∃ r, format_options_loop (M.map mkPair) = .ok r := by
  induction M with
  | nil => exact ⟨[], rfl⟩
  | cons p rest ih =>
    obtain ⟨r, hr⟩ := ih
    refine ⟨(renderedAction p.1, p.2) :: r, ?_⟩
    rw [List.map_cons, format_options_loop]
    rw [show unpack2 (mkPair p) = .ok (p.1, p.2) from rfl, hr]

/-- The rendered-options loop succeeds when every element unpacks. -/
theorem format_options_loop_all_ok :
    ∀ (l : List PyVal), (∀ o ∈ l, exceptIsOk (unpack2 o) = true) →
      ∃ r, format_options_loop l = .ok r := by
  intro l
  induction l with
  | nil => intro _; exact ⟨[], rfl⟩
  | cons o rest ih =>
    intro hall
    obtain ⟨ap, hap⟩ := exceptIsOk_eq_true (hall o (List.mem_cons_self _ _))
    obtain ⟨r, hr⟩ := ih (fun x hx => hall x (List.mem_cons_of_mem _ hx))
    exact ⟨(renderedAction ap.1, ap.2) :: r, by rw [format_options_loop, hap, hr]⟩

/-- The meta branch only produces built pairs. -/
theorem decode_meta_shape (h : MjHelper) (meta : List (String × PyVal)) (is_3p : Bool) :
    ∃ L : List (PyVal × PyVal), (decode_meta h meta is_3p).1 = L.map mkPair := by
  rw [decode_meta]
  cases meta_to_options h meta is_3p with
  | ok opts => exact ⟨opts.map (fun p => (.str p.1, .float p.2)), by simp⟩
  | error e =>
    cases manual_meta_parse h meta is_3p with
    | ok opts => exact ⟨opts.map (fun p => (.str p.1, .float p.2)), by simp⟩
    | error e2 => exact ⟨[], rfl⟩

/-- The tail of the `elif` chain only produces built pairs. -/
theorem fallback_rest_shape (kvs : List (String × PyVal)) :
    ∃ L : List (PyVal × PyVal), (fallback_rest kvs).1 = L.map mkPair := by
  rw [fallback_rest]
  cases List.lookup "action" kvs with
  | some a => exact ⟨[(a, (List.lookup "prob" kvs).getD .none)], rfl⟩
  | none =>
    cases List.lookup "selected" kvs with
    | some sel => exact ⟨[(sel, (List.lookup "prob" kvs).getD .none)], rfl⟩
    | none =>
      cases pySortDescByVal kvs with
      | ok items => exact ⟨items.map (fun kv => (.str kv.1, kv.2)), by simp⟩
      | error e => exact ⟨[], rfl⟩

/-- Every branch of the decoder yields either built pairs or the verbatim
`options` list of a dict payload. -/
theorem parse_branch_shape (h : MjHelper) (v : PyVal) (is_3p : Bool) :
    (∃ L : List (PyVal × PyVal), (parse_branch h v is_3p).1 = L.map mkPair) ∨
    (∃ kvs opts, v = .dict kvs ∧ List.lookup "options" kvs = some (.list opts) ∧
      (parse_branch h v is_3p).1 = opts) := by
  have hfb : (∃ L : List (PyVal × PyVal), (fallback_branches v).1 = L.map mkPair) ∨
      (∃ kvs opts, v = .dict kvs ∧ List.lookup "options" kvs = some (.list opts) ∧
        (fallback_branches v).1 = opts) := by
    cases v with
    | dict kvs =>
      rw [fallback_branches]
      cases hopt : List.lookup "options" kvs with
      | none => exact Or.inl (fallback_rest_shape kvs)
      | some w =>
        cases w with
        | list opts => exact Or.inr ⟨kvs, opts, rfl, hopt, rfl⟩
        | none => exact Or.inl (fallback_rest_shape kvs)
        | bool b => exact Or.inl (fallback_rest_shape kvs)
        | int n => exact Or.inl (fallback_rest_shape kvs)
        | float q => exact Or.inl (fallback_rest_shape kvs)
        | str s => exact Or.inl (fallback_rest_shape kvs)
        | tuple xs => exact Or.inl (fallback_rest_shape kvs)
        | dict kvs2 => exact Or.inl (fallback_rest_shape kvs)
    | none => exact Or.inl ⟨[], rfl⟩
    | bool b => exact Or.inl ⟨[], rfl⟩
    | int n => exact Or.inl ⟨[], rfl⟩
    | float q => exact Or.inl ⟨[], rfl⟩
    | str s => exact Or.inl ⟨[], rfl⟩
    | list xs => exact Or.inl ⟨[], rfl⟩
    | tuple xs => exact Or.inl ⟨[], rfl⟩
  unfold parse_branch
  split
  · split
    · exact Or.inl (decode_meta_shape h _ is_3p)
    · exact hfb
  · exact hfb

/-- C4: for every recommendation payload and every value of the `top_k`
parameter, the list of rendered (action text, probability) entries
returned by `parse_ai_recommendation` has length at most 2, regardless of
the parsing branch and of how many raw options it produced. -/
theorem parse_ai_recommendation_top_two (h : MjHelper) (v : PyVal) (is_3p : Bool)
    (top_k : Nat) (r : List (String × PyVal) × String)
    (hr : parse_ai_recommendation h v is_3p top_k = .ok r) : r.1.length ≤ 2 := by
  rw [parse_ai_recommendation] at hr
  split at hr
  · cases hr
    simp
  · revert hr
    cases hfmt : format_options_loop ((parse_branch h v is_3p).1.take 2) with
    | error e => intro hr; cases hr
    | ok f =>
      intro hr
      cases hr
      have hlen := format_options_loop_length _ _ hfmt
      simpa [hlen] using List.length_take_le 2 (parse_branch h v is_3p).1

/-- Witness for `parse_ai_recommendation_top_two` at a payload whose
`options` branch produced three raw options. -/
theorem parse_ai_recommendation_top_two_witness :
    (([("打", PyVal.float (mkRat 1 2)), ("碰", PyVal.float (mkRat 1 4))], "来自 options 字段") :
      List (String × PyVal) × String).1.length ≤ 2 :=
  parse_ai_recommendation_top_two mjh0
    (.dict [("options", .list [.tuple [.str "dahai", .float (mkRat 1 2)],
                               .tuple [.str "pon", .float (mkRat 1 4)],
                               .tuple [.str "chi", .float (mkRat 1 8)]])]) false 5
    ([("打", PyVal.float (mkRat 1 2)), ("碰", PyVal.float (mkRat 1 4))], "来自 options 字段") rfl

/-- C1 (counterexample): the claim that the decoder returns without
raising for every structurally plausible payload fails on the payload
whose `options` list contains the bare number 5: the final unpacking of
that option raises, so the call produces an error. -/
theorem parse_ai_recommendation_raises_on_nonpair_option :
    exceptIsOk (parse_ai_recommendation mjh0
      (.dict [("options", .list [.int 5])]) false 3) = false := rfl

/-- C1 (amended): the decoder returns without raising for every payload
provided every element of a verbatim `options` list unpacks as an
(action, probability) pair; all other branches only build such pairs
themselves. -/
theorem parse_ai_recommendation_total_of_pair_options (h : MjHelper) (v : PyVal)
    (is_3p : Bool) (top_k : Nat)
    (hopt : ∀ kvs opts, v = PyVal.dict kvs →
      List.lookup "options" kvs = some (PyVal.list opts) →
      ∀ o ∈ opts, exceptIsOk (unpack2 o) = true) :
    exceptIsOk (parse_ai_recommendation h v is_3p top_k) = true := by
  rw [parse_ai_recommendation]
  split
  · rfl
  · rcases parse_branch_shape h v is_3p with ⟨L, hL⟩ | ⟨kvs, opts, hv, hlk, hO⟩
    · rw [hL, ← List.map_take]
      obtain ⟨r, hr⟩ := format_options_loop_map_ok (L.take 2)
      rw [hr]
      rfl
    · rw [hO]
      obtain ⟨r, hr⟩ := format_options_loop_all_ok (opts.take 2)
        (fun o ho => hopt kvs opts hv hlk o (List.take_subset _ _ ho))
      rw [hr]
      rfl

/-- Witness for `parse_ai_recommendation_total_of_pair_options` at a
payload whose `options` list holds one well-formed pair. -/
theorem parse_ai_recommendation_total_of_pair_options_witness :
    exceptIsOk (parse_ai_recommendation mjh0
      (.dict [("options", .list [.tuple [.str "dahai", .float (mkRat 1 2)]])]) false 3) = true :=
  parse_ai_recommendation_total_of_pair_options mjh0
    (.dict [("options", .list [.tuple [.str "dahai", .float (mkRat 1 2)]])]) false 3
    (by
      intro kvs opts hv hlk o ho
      injection hv with hkvs
      subst hkvs
      rw [show List.lookup "options" [("options", PyVal.list [.tuple [.str "dahai", .float (mkRat 1 2)]])]
            = some (PyVal.list [.tuple [.str "dahai", .float (mkRat 1 2)]]) from rfl] at hlk
      injection hlk with hlk2
      injection hlk2 with hlk3
      subst hlk3
      rcases List.mem_singleton.mp ho with rfl
      rfl)

/-- C3 (counterexample): the claim that every unrecognized payload yields
a non-empty diagnostic provenance string fails on the truthy non-dict
payload "hello", for which the decoder returns an empty option list with
an empty provenance string. -/
theorem parse_ai_recommendation_empty_provenance_on_nondict :
    ¬ (∀ fmt info, parse_ai_recommendation mjh0 (.str "hello") false 3 = .ok (fmt, info) →
        info ≠ "") :=
  fun hcl => hcl [] "" rfl rfl

/-- C3 (amended): a payload matching no recognized shape never raises and
yields an empty option list; the provenance string is empty when the
payload is a truthy non-dict value, and is the fixed non-empty diagnostic
when the payload is a dict without the recognized keys whose values fail
to sort. -/
theorem parse_ai_recommendation_unrecognized_shapes (h : MjHelper) (v : PyVal)
    (is_3p : Bool) (top_k : Nat) :
    (pyBool v = true → (∀ kvs, v ≠ PyVal.dict kvs) →
      parse_ai_recommendation h v is_3p top_k = .ok ([], "")) ∧
    (∀ kvs e, v = PyVal.dict kvs → kvs ≠ [] →
      List.lookup "meta" kvs = Option.none →
      List.lookup "q_values" kvs = Option.none →
      List.lookup "options" kvs = Option.none →
      List.lookup "action" kvs = Option.none →
      List.lookup "selected" kvs = Option.none →
      pySortDescByVal kvs = .error e →
      parse_ai_recommendation h v is_3p top_k = .ok ([], "无法解析推荐")) := by
  constructor
  · intro hb hnd
    have hsel : select_meta_source v = Option.none := by
      cases v with
      | dict kvs => exact absurd rfl (hnd kvs)
      | none => rfl
      | bool b => rfl
      | int n => rfl
      | float q => rfl
      | str s => rfl
      | list xs => rfl
      | tuple xs => rfl
    have hpb : parse_branch h v is_3p = ([], []) := by
      rw [parse_branch, hsel]
      cases v with
      | dict kvs => exact absurd rfl (hnd kvs)
      | none => rfl
      | bool b => rfl
      | int n => rfl
      | float q => rfl
      | str s => rfl
      | list xs => rfl
      | tuple xs => rfl
    rw [parse_ai_recommendation, if_neg (not_not_intro hb), hpb]
    rfl
  · intro kvs e hv hne hm hq ho ha hs hsort
    subst hv
    have hsel : select_meta_source (.dict kvs) = Option.none := by
      rw [select_meta_source, hm]
      simp [hq]
    have hpb : parse_branch h (.dict kvs) is_3p = ([], ["无法解析推荐"]) := by
      rw [parse_branch, hsel]
      show fallback_branches (.dict kvs) = _
      rw [fallback_branches, ho]
      show fallback_rest kvs = _
      rw [fallback_rest, ha, hs, hsort]
    have hb : pyBool (.dict kvs) = true := by
      simp [pyBool, hne]
    rw [parse_ai_recommendation, if_neg (not_not_intro hb), hpb]
    rfl

/-- Witness for `parse_ai_recommendation_unrecognized_shapes` at the
string payload "hello" and at a two-key dict whose values are a string
and a number (which Python cannot order). -/
theorem parse_ai_recommendation_unrecognized_shapes_witness :
    parse_ai_recommendation mjh0 (.str "hello") false 3 = .ok ([], "") ∧
    parse_ai_recommendation mjh0 (.dict [("a", .str "x"), ("b", .int 1)]) false 3 =
      .ok ([], "无法解析推荐") :=
  ⟨(parse_ai_recommendation_unrecognized_shapes mjh0 (.str "hello") false 3).1 rfl
      (fun kvs hcon => PyVal.noConfusion hcon),
   (parse_ai_recommendation_unrecognized_shapes mjh0
      (.dict [("a", .str "x"), ("b", .int 1)]) false 3).2
      [("a", .str "x"), ("b", .int 1)] "TypeError: comparison not supported" rfl
      (by intro hcon; cases hcon) rfl rfl rfl rfl rfl rfl⟩

/-- A numeric-list extraction round trip. -/
theorem qElems_float (qv : List ℚ) :
    pyQList.qElems (qv.map PyVal.float) = .ok qv := by
  induction qv with
  | nil => rfl
  | cons q rest ih =>
    rw [List.map_cons, pyQList.qElems, ih]
    rfl

/-- The numeric-list extraction on an encoded float list. -/
theorem pyQList_float_list (qv : List ℚ) :
    pyQList (.list (qv.map PyVal.float)) = .ok qv := by
  rw [pyQList, qElems_float]

/-- The mask extraction on a nonnegative integer. -/
theorem pyMaskBits_nat (bits : Nat) : pyMaskBits (.int (bits : Int)) = .ok bits := by
  simp [pyMaskBits, Int.natCast_nonneg]

/-- The pairing loop produces exactly one entry per true mask position. -/
theorem pair_loop_length (ml : List String) (ws : List ℚ) :
    ∀ (mask : List Bool) (i k : Nat),
      (pair_loop ml ws mask i k).length = mask.count true := by
  intro mask
  induction mask with
  | nil => intro i k; rfl
  | cons b rest ih =>
    intro i k
    cases b with
    | true => simp [pair_loop, ih, List.count_cons]
    | false => simp [pair_loop, ih, List.count_cons]

/-- Positions of the pairing loop beyond the probability list are paired
with probability zero. -/
theorem pair_loop_zero (ml : List String) (ws : List ℚ) :
    ∀ (mask : List Bool) (i k j : Nat) (hj : j < (pair_loop ml ws mask i k).length),
      ws.length ≤ k + j → ((pair_loop ml ws mask i k).get ⟨j, hj⟩).2 = 0 := by
  intro mask
  induction mask with
  | nil => intro i k j hj _; simp [pair_loop] at hj
  | cons b rest ih =>
    intro i k j hj hw
    cases b with
    | false => exact ih (i + 1) k j hj hw
    | true =>
      cases j with
      | zero =>
        show ws.getD k 0 = 0
        exact List.getD_eq_default ws 0 (by omega)
      | succ j' =>
        exact ih (i + 1) (k + 1) j'
          (Nat.lt_of_succ_lt_succ hj) (by omega)

/-- The decoder sort is sorted descending on the probability component. -/
theorem sortProbDesc_sorted (l : List (String × ℚ)) :
    List.Sorted (fun a b => a ≥ b) ((sortProbDesc l).map Prod.snd) := by
  have hs := List.sorted_insertionSort probGE l
  exact hs.map Prod.snd (fun a b hab => hab)

/-- The decoder sort preserves length. -/
theorem sortProbDesc_length (l : List (String × ℚ)) :
    (sortProbDesc l).length = l.length :=
  List.length_insertionSort probGE l

/-- C5: for every payload decoded through the q_values/mask_bits path
(both the helper decode and the manual fallback run the same pairing),
the resulting option list is sorted descending by probability and its
length is at most the number of true bits in the decoded mask; every
true mask position beyond the probability count is paired with
probability zero instead of failing. -/
theorem meta_qvalues_mask_decode_spec (h : MjHelper) (meta : List (String × PyVal))
    (qv : List ℚ) (bits : Nat) (is_3p : Bool)
    (ml : List String) (mask : List Bool) (raw res : List (String × ℚ))
    (hq : List.lookup "q_values" meta = some (.list (qv.map PyVal.float)))
    (hb : List.lookup "mask_bits" meta = some (.int (bits : Int)))
    (hsm : (h.softmax qv).length = qv.length)
    (hml : ml = maskListOf h is_3p)
    (hmask : mask = mask_bits_to_bool_list ml.length bits)
    (hraw : raw = pair_loop ml (h.softmax qv) mask 0 0)
    (hres : res = sortProbDesc raw) :
    meta_to_options h meta is_3p = .ok res ∧
    manual_meta_parse h meta is_3p = .ok res ∧
    List.Sorted (fun a b => a ≥ b) (res.map Prod.snd) ∧
    res.length ≤ mask.count true ∧
    ∀ j (hj : j < raw.length), qv.length ≤ j → (raw.get ⟨j, hj⟩).2 = 0 := by
  subst hml hmask hraw hres
  refine ⟨?_, ?_, sortProbDesc_sorted _, ?_, ?_⟩
  · rw [meta_to_options, hq, hb]
    simp only [Option.getD_some, pyQList_float_list, pyMaskBits_nat, except_bind_ok]
  · rw [manual_meta_parse, hq, hb]
    simp only [Option.getD_some, pyQList_float_list, pyMaskBits_nat, except_bind_ok]
  · rw [sortProbDesc_length, pair_loop_length]
  · intro j hj hle
    exact pair_loop_zero _ _ _ 0 0 j hj (by omega)

/-- Witness for `meta_qvalues_mask_decode_spec` at a concrete helper,
two raw scores and mask bits 11 (three true bits, so the zero fill is
exercised). -/
theorem meta_qvalues_mask_decode_spec_witness :
    (mjhW.softmax [mkRat 1 2, mkRat 1 4]).length = ([mkRat 1 2, mkRat 1 4] : List ℚ).length ∧
    (meta_to_options mjhW metaW false =
       .ok (sortProbDesc (pair_loop (maskListOf mjhW false) (mjhW.softmax [mkRat 1 2, mkRat 1 4])
             (mask_bits_to_bool_list (maskListOf mjhW false).length 11) 0 0)) ∧
     manual_meta_parse mjhW metaW false =
       .ok (sortProbDesc (pair_loop (maskListOf mjhW false) (mjhW.softmax [mkRat 1 2, mkRat 1 4])
             (mask_bits_to_bool_list (maskListOf mjhW false).length 11) 0 0)) ∧
     List.Sorted (fun a b => a ≥ b)
       ((sortProbDesc (pair_loop (maskListOf mjhW false) (mjhW.softmax [mkRat 1 2, mkRat 1 4])
             (mask_bits_to_bool_list (maskListOf mjhW false).length 11) 0 0)).map Prod.snd) ∧
     (sortProbDesc (pair_loop (maskListOf mjhW false) (mjhW.softmax [mkRat 1 2, mkRat 1 4])
             (mask_bits_to_bool_list (maskListOf mjhW false).length 11) 0 0)).length ≤
       (mask_bits_to_bool_list (maskListOf mjhW false).length 11).count true ∧
     ∀ j (hj : j < (pair_loop (maskListOf mjhW false) (mjhW.softmax [mkRat 1 2, mkRat 1 4])
             (mask_bits_to_bool_list (maskListOf mjhW false).length 11) 0 0).length),
       ([mkRat 1 2, mkRat 1 4] : List ℚ).length ≤ j →
       ((pair_loop (maskListOf mjhW false) (mjhW.softmax [mkRat 1 2, mkRat 1 4])
             (mask_bits_to_bool_list (maskListOf mjhW false).length 11) 0 0).get ⟨j, hj⟩).2 = 0) :=
  ⟨rfl, meta_qvalues_mask_decode_spec mjhW metaW [mkRat 1 2, mkRat 1 4] 11 false
    _ _ _ _ rfl rfl rfl rfl rfl rfl rfl⟩

/-- C6: the probability formatter maps 0.873 to " (87.3%)", the integer
42 to " (42.0%)", None to the empty suffix, and any value that float
conversion rejects to its verbatim display inside parentheses. -/
theorem fmt_prob_spec :
    fmt_prob (.float (mkRat 873 1000)) = " (87.3%)" ∧
    fmt_prob (.int 42) = " (42.0%)" ∧
    fmt_prob .none = "" ∧
    ∀ p e, pyToFloat p = .error e → p ≠ PyVal.none →
      fmt_prob p = " (" ++ pyStr p ++ ")" := by
  refine ⟨rfl, rfl, rfl, ?_⟩
  intro p e hpf hne
  cases p with
  | none => exact absurd rfl hne
  | bool b => simp [pyToFloat] at hpf
  | int n => simp [pyToFloat] at hpf
  | float q => simp [pyToFloat] at hpf
  | str s =>
    simp only [fmt_prob]
    rw [hpf]
  | list xs =>
    simp only [fmt_prob]
    rw [hpf]
  | tuple xs =>
    simp only [fmt_prob]
    rw [hpf]
  | dict kvs =>
    simp only [fmt_prob]
    rw [hpf]

/-- Witness for `fmt_prob_spec` at the non-numeric string "abc". -/
theorem fmt_prob_spec_witness :
    pyToFloat (PyVal.str "abc") = .error "ValueError: could not convert string to float" ∧
    fmt_prob (PyVal.str "abc") = " (abc)" :=
  ⟨rfl, fmt_prob_spec.2.2.2 (PyVal.str "abc") "ValueError: could not convert string to float" rfl
    (fun hcon => PyVal.noConfusion hcon)⟩

/-- C8: the discard descriptor renders in the short verb-plus-tile form
打红五万 with no separating space in the tuple, list, dict and bare-string
action forms alike, while a non-discard call such as pon renders in the
long form with a space, 碰 东. -/
theorem action_to_nl_dahai_short_form :
    action_to_nl (.tuple [.str "dahai", .str "5mr"]) = .ok "打红五万" ∧
    action_to_nl (.list [.str "dahai", .str "5mr"]) = .ok "打红五万" ∧
    action_to_nl (.dict [("type", .str "dahai"), ("pai", .str "5mr")]) = .ok "打红五万" ∧
    action_to_nl (.str "dahai") = .ok "打" ∧
    action_to_nl (.tuple [.str "pon", .str "E"]) = .ok "碰 东" ∧
    action_to_nl (.dict [("type", .str "pon"), ("pai", .str "E")]) = .ok "碰 东" :=
  ⟨rfl, rfl, rfl, rfl, rfl, rfl⟩

/-- C9: the dora successor table sends rank n to rank n+1 within each
suit with 9 wrapping to 1, cycles the four winds and the three dragons
inside their own groups, and never maps a tile outside its own group. -/
theorem dora_marker_successor_groups :
    (∀ c ∈ ["m", "p", "s"], ∀ n ∈ List.range 9,
      List.lookup (toString (n + 1) ++ c) DORA_DORA_MARKERS =
        some (toString ((n + 1) % 9 + 1) ++ c)) ∧
    (∀ i ∈ List.range 4,
      List.lookup (windGroup.getD i "") DORA_DORA_MARKERS =
        some (windGroup.getD ((i + 1) % 4) "")) ∧
    (∀ i ∈ List.range 3,
      List.lookup (dragonGroup.getD i "") DORA_DORA_MARKERS =
        some (dragonGroup.getD ((i + 1) % 3) "")) ∧
    (∀ p ∈ DORA_DORA_MARKERS, ∃ g ∈ tileGroups, p.1 ∈ g ∧ p.2 ∈ g) :=
  ⟨by decide, by decide, by decide, by decide⟩

/-- C10: on a list of string markers, `get_dora_from_markers` returns the
successors of exactly the markers present in the table, in input order,
silently omitting the rest, so the output is the filtered lookup map and
its length is at most the input length. -/
theorem get_dora_from_markers_spec (ms : List String) :
    get_dora_from_markers (.list (ms.map PyVal.str)) =
      .ok (ms.filterMap (fun m => List.lookup m DORA_DORA_MARKERS)) ∧
    (ms.filterMap (fun m => List.lookup m DORA_DORA_MARKERS)).length ≤ ms.length := by
  constructor
  · cases ms with
    | nil => rfl
    | cons s rest =>
      have hb : ¬ (¬ pyBool (PyVal.list (List.map PyVal.str (s :: rest))) = true) :=
        not_not_intro (by simp [pyBool])
      rw [get_dora_from_markers, if_neg hb]
      exact dora_loop_map_str (s :: rest)
  · exact List.length_filterMap_le _ _

/-- C2: on a context in which every optional per-seat field is absent,
the composer raises (it subscripts the absent `discarded_type` before any
guard) instead of rendering placeholders. -/
theorem explain_raises_when_optional_fields_missing :
    exceptIsOk (explain_lines mjh0 (.dict []) (.dict []) (.dict []) false 3) = false := rfl

/-- C7: in the concrete four-player context `G7`/`K7` with dealer seat 0
and viewer seat 0, the composed document labels seat index 2 with the
wind 西 in the score line (index 4), but the ledger line for that seat
(index 9) carries the plain positional label without any wind. -/
theorem explain_seat_label_wind_dropped_in_ledger :
    (explain_lines mjh0 G7 K7 (.dict []) false 3).map
      (fun l => ((l.getD 4 "").toList.contains '西',
                 (l.getD 9 "").toList.contains '西',
                 l.getD 9 "")) =
    .ok (true, false, "第3位 牌河: 手切九饼；副露: 无") := rfl
